import Mathlib

/-!
Verification of `batc.py`, a thin Slurm-submission wrapper.

The embedding models Python strings as `List Char` (`Str`), the process
environment and filesystem as components of a `World` record, and the
observable side effects of each command (`setup`, `run`) as an explicit
list of `Effect`s paired with an optional fatal error.  All definitions
are transcribed from `src/batc.py`; the helper `str` converts a Lean
string literal into the character-list representation.
-/

namespace Batc

/-- Python strings are modelled as lists of characters. -/
abbrev Str := List Char

/-- Character-list representation of a string literal. -/
def str (s : String) : Str := s.data

/-- Rendering of an optional value inside a Python f-string:
`None` renders as the four characters `None`. -/
def pyStr : Option Str → Str
  | some s => s
  | none => str "None"

/-- Rendering of a Python `int` inside an f-string. -/
def intToStr (n : Int) : Str := (toString n).data

/-- `os.path.isabs`: a POSIX path is absolute iff it starts with `/`. -/
def isAbs (p : Str) : Bool :=
  match p with
  | '/' :: _ => true
  | _ => false

/-- OS resolution of a (possibly relative) path against the process's
current working directory, as performed by `os.path.isfile`. -/
def resolvePath (cwd p : Str) : Str :=
  if isAbs p then p else cwd ++ '/' :: p

/-- `os.path.join` for two components (POSIX semantics). -/
def pathJoin (a b : Str) : Str :=
  if isAbs b then b
  else if a = [] ∨ a.getLast? = some '/' then a ++ b
  else a ++ '/' :: b

/-- The ambient process state: filesystem (a predicate on absolute
paths), environment variables, current working directory, home
directory, the host's fully-qualified domain name, the captured
stdout/stderr of the `sbatch` child process, and the current time's
textual rendering. -/
structure World where
  isfile : Str → Bool
  env : String → Option Str
  cwd : Str
  home : Str
  fqdn : Str
  sbatchOut : Str
  sbatchErr : Str
  now : Str

/-- `os.path.isfile(p)` resolves `p` against the current working
directory and queries the filesystem. -/
def isfileAt (w : World) (p : Str) : Bool :=
  w.isfile (resolvePath w.cwd p)

/-- Observable side effects of a command invocation. -/
inductive Effect
  | echo (msg : Str)
  | system (cmd : Str)
  | appendFile (path content : Str)
  | spawnSbatch (script : Str)
  | writeFile (path content : Str)
deriving DecidableEq

/-- Fatal Python errors relevant to this program. -/
inductive PyError
  | badOptionUsage (optionName message : Str)
  | typeError
  | attributeError
deriving DecidableEq

/-- `re.search(r"^nexus([a-zA-Z]+)", fqdn)`: the anchored pattern
matches iff the name starts with the literal `nexus` followed by at
least one ASCII letter; the captured group is the maximal letter run. -/
def matchNexus (fqdn : Str) : Option Str :=
  if (str "nexus").isPrefixOf fqdn then
    match (fqdn.drop 5).takeWhile Char.isAlpha with
    | [] => none
    | c :: cs => some (c :: cs)
  else none

/-- `re.search(r"Submitted batch job (\d+)", s)`: scan left to right
for the literal followed by at least one digit; the captured group is
the maximal digit run at the leftmost matching position. -/
def searchPid : Str → Option Str
  | [] => none
  | c :: rest =>
    if (str "Submitted batch job ").isPrefixOf (c :: rest) then
      match ((c :: rest).drop 20).takeWhile Char.isDigit with
      | [] => searchPid rest
      | d :: ds => some (d :: ds)
    else searchPid rest

/-- The spec's notion of the submit output "containing the substring
`Submitted batch job <digits>`". -/
def ContainsSubmitted (s : Str) : Prop :=
  ∃ pre ds post, ds ≠ [] ∧ (∀ c ∈ ds, c.isDigit) ∧
    s = pre ++ str "Submitted batch job " ++ ds ++ post

/-- `batc.py` line 67: the default for `--conda_env` is
`os.getenv('$CONDA_DEFAULT_ENV')` — the environment variable whose name
literally starts with a dollar sign. -/
def condaEnvDefault (env : String → Option Str) : Option Str :=
  env "$CONDA_DEFAULT_ENV"

/-- `batc.py` line 66: the default for `--pwd` is `os.getenv('PWD')`. -/
def pwdDefault (env : String → Option Str) : Option Str :=
  env "PWD"

/-- The arguments of the `run` command after click parsing.  `pwd` and
`conda_env` are optional because their defaults are `os.getenv` results
that may be `None`. -/
structure RunArgs where
  command : Str
  job : Str
  qos : Str
  ntasks : Int
  cpu : Int
  mem : Str
  gpu : Str
  time : Str
  pwd : Option Str
  conda_env : Option Str
  acc : Str
  part : Str
  logfile : Str
  datafile : Str
  m : Bool

/-- Lines 83-84: a command naming an existing file is prefixed with
`python `; anything else passes through verbatim. -/
def normCmd (w : World) (command : Str) : Str :=
  if isfileAt w command then str "python " ++ command else command

/-- Lines 85-86: an empty `--logfile` defaults to `{job}.log`. -/
def dLog (a : RunArgs) : Str :=
  if a.logfile = [] then a.job ++ str ".log" else a.logfile

/-- Lines 87-88: an empty `--datafile` defaults to `{job}.data`. -/
def dData (a : RunArgs) : Str :=
  if a.datafile = [] then a.job ++ str ".data" else a.datafile

/-- Lines 92-96: the `-M` flag overrides `qos` to `huge-long`. -/
def effQos (a : RunArgs) : Str :=
  if a.m then str "huge-long" else a.qos

/-- Lines 92-96: the `-M` flag overrides `cpu` to `4`. -/
def effCpu (a : RunArgs) : Int :=
  if a.m then 4 else a.cpu

/-- Lines 92-96: the `-M` flag overrides `gpu` to `rtxa4000:4`. -/
def effGpu (a : RunArgs) : Str :=
  if a.m then str "rtxa4000:4" else a.gpu

/-- Lines 92-96: the `-M` flag overrides `mem` to `32`. -/
def effMem (a : RunArgs) : Str :=
  if a.m then str "32" else a.mem

/-- Lines 98-117: the f-string template of the batch script. -/
def renderScript (job qos part acc : Str) (ntasks cpu : Int)
    (mem gpu time pwdR logfile condaEnv command : Str) : Str :=
  str "#!/bin/bash\n#SBATCH --job-name=" ++ job
    ++ str "\n#SBATCH --qos=" ++ qos
    ++ str "\n#SBATCH --partition=" ++ part
    ++ str "\n#SBATCH --account=" ++ acc
    ++ str "\n#SBATCH --ntasks=" ++ intToStr ntasks
    ++ str "\n#SBATCH --cpus-per-task=" ++ intToStr cpu
    ++ str "\n#SBATCH --mem=" ++ mem ++ str "gb"
    ++ str "\n#SBATCH --gpus=" ++ gpu
    ++ str "\n#SBATCH --time=" ++ time
    ++ str "\n#SBATCH --output=" ++ pwdR ++ str "/" ++ logfile
    ++ str " # Redirect the output to a file\n\neval \"$(conda shell.bash hook)\"\n\n# Activate conda environment\nconda activate "
    ++ condaEnv
    ++ str "\n\n# Run your Python script or other commands\n" ++ command ++ str "\n"

/-- The script `run` renders: the template applied to the (possibly
`-M`-overridden) resource fields, the derived logfile name, the
f-string renderings of `pwd`/`conda_env`, and the normalized command. -/
def scriptOf (w : World) (a : RunArgs) : Str :=
  renderScript a.job (effQos a) a.part a.acc a.ntasks (effCpu a)
    (effMem a) (effGpu a) a.time (pyStr a.pwd) (dLog a)
    (pyStr a.conda_env) (normCmd w a.command)

/-- Lines 134-139: the job id extracted from the captured stdout, or
the placeholder `Unknown PID`. -/
def pidOf (s : Str) : Str :=
  match searchPid s with
  | some ds => ds
  | none => str "Unknown PID"

/-- Lines 142-159: the text written to the data file — a header line
followed by each entry of `lines_to_add`, each terminated by a
newline. -/
def recordContent (w : World) (a : RunArgs) : Str :=
  str "\n# Details <batc> ::\n"
    ++ (str "PID : " ++ pidOf w.sbatchOut) ++ str "\n"
    ++ str " " ++ str "\n"
    ++ (str "Time of job submission: " ++ w.now) ++ str "\n"
    ++ str " " ++ str "\n"
    ++ str "Sbatch script:" ++ str "\n"
    ++ scriptOf w a ++ str "\n"
    ++ str " " ++ str "\n"
    ++ str "Std Out From Subprocess (If Any):" ++ str "\n"
    ++ w.sbatchOut ++ str "\n"
    ++ str "Std Err (If Any):" ++ str "\n"
    ++ w.sbatchErr ++ str "\n"

/-- The `run` command (lines 74-159): check the logfile precondition,
spawn `sbatch` on the rendered script, then write the record file at
`os.path.join(os.getenv('PWD'), datafile)` — a `TypeError` if the
`PWD` environment variable is unset. -/
def run (w : World) (a : RunArgs) : List Effect × Option PyError :=
  if isfileAt w (dLog a) then
    ([], some (.badOptionUsage (str "--logfile")
      (str "File with the same name as logfile already exists")))
  else
    match w.env "PWD" with
    | none => ([.spawnSbatch (scriptOf w a)], some .typeError)
    | some p =>
      ([.spawnSbatch (scriptOf w a),
        .writeFile (pathJoin p (dData a)) (recordContent w a)], none)

/-- Lines 42-53: the block appended to `~/.bashrc` by `setup`. -/
def bashrcBlock (w : World) : Str :=
  str "\n# Added by <batc>\n"
    ++ (str "alias scratch=\"cd /fs/nexus-scratch/" ++ pyStr (w.env "USER") ++ str "/\"") ++ str "\n"
    ++ str "export BATC_SETUP=true" ++ str "\n"
    ++ str "# End of <batc>\n"

/-- The `setup` command (lines 29-55): if the guard variable
`BATC_SETUP` equals `true`, report and do nothing; otherwise install
the package, append the block to the shell profile, and re-source it. -/
def setup (w : World) : List Effect × Option PyError :=
  if w.env "BATC_SETUP" = some (str "true") then
    ([.echo (str "Setup has already been completed")], none)
  else
    ([.system (str "pip install conda"),
      .appendFile (w.home ++ str "/.bashrc") (bashrcBlock w),
      .system (str "source ~/.bashrc")], none)

/-- A CLI invocation: one of the two subcommands. -/
inductive Command
  | setupCmd
  | runCmd (a : RunArgs)

/-- Program entry: line 11 computes
`re.search(r"^nexus([a-zA-Z]+)", socket.getfqdn()).group(1)` at module
level, so a non-matching hostname raises `AttributeError` before any
subcommand dispatches. -/
def batcMain (w : World) (c : Command) : List Effect × Option PyError :=
  match matchNexus w.fqdn with
  | none => ([], some .attributeError)
  | some _ =>
    match c with
    | .setupCmd => setup w
    | .runCmd a => run w a

/-- The lines of a text: split on every newline character.  A text
with `n` newlines has `n + 1` lines; a trailing newline yields a final
empty line. -/
def splitLines : Str → List Str
  | [] => [[]]
  | c :: rest =>
    if c = '\n' then [] :: splitLines rest
    else
      match splitLines rest with
      | [] => [[c]]
      | l :: ls => (c :: l) :: ls

/-- Join a list of lines with newline separators (inverse of
`splitLines` on newline-free lines). -/
def joinLines : List Str → Str
  | [] => []
  | [l] => l
  | l :: l' :: ls => l ++ '\n' :: joinLines (l' :: ls)

/-- A sample environment: working directory `/cwd`, user `alice`, an
active conda environment `myenv`, the setup guard already set, and no
variable literally named `$CONDA_DEFAULT_ENV`. -/
def envStd : String → Option Str := fun k =>
  if k = "PWD" then some (str "/cwd")
  else if k = "USER" then some (str "alice")
  else if k = "CONDA_DEFAULT_ENV" then some (str "myenv")
  else if k = "BATC_SETUP" then some (str "true")
  else none

/-- A filesystem with no files. -/
def fsNone : Str → Bool := fun _ => false

/-- A filesystem containing only `/cwd/default.log`. -/
def fsLog : Str → Bool := fun p => p == str "/cwd/default.log"

/-- A filesystem containing only `/cwd/train.py`. -/
def fsTrain : Str → Bool := fun p => p == str "/cwd/train.py"

/-- A sample world on a matching `nexus…` host whose `sbatch` reports
job 12345. -/
def wStd : World :=
  { isfile := fsNone
    env := envStd
    cwd := str "/cwd"
    home := str "/home/alice"
    fqdn := str "nexusclip00.umiacs.umd.edu"
    sbatchOut := str "Submitted batch job 12345\n"
    sbatchErr := str ""
    now := str "2026-10-12 00:00:00" }

/-- Sample `run` arguments with explicit values for every option. -/
def aStd : RunArgs :=
  { command := str "python train.py --flag"
    job := str "myjob"
    qos := str "default"
    ntasks := 1
    cpu := 1
    mem := str "32"
    gpu := str "rtxa4000:1"
    time := str "10:00"
    pwd := some (str "/home/alice/proj")
    conda_env := some (str "base")
    acc := str "clip"
    part := str "clip"
    logfile := []
    datafile := []
    m := false }

/- ------------------------------------------------------------------
   General lemmas about the embedding
   ------------------------------------------------------------------ -/

theorem splitLines_ne_nil (s : Str) : splitLines s ≠ [] := by
  induction s with
  | nil => simp [splitLines]
  | cons c rest ih =>
    simp only [splitLines]
    split
    · simp
    · split
      · simp
      · simp

theorem splitLines_append (x r : Str) :
    splitLines (x ++ '\n' :: r) = splitLines x ++ splitLines r := by
  induction x with
  | nil => simp [splitLines]
  | cons c x ih =>
    by_cases hc : c = '\n'
    · subst hc
      simp [splitLines, ih]
    · simp only [List.cons_append, splitLines, if_neg hc, List.append_eq]
      cases h : splitLines x with
      | nil => exact absurd h (splitLines_ne_nil x)
      | cons l ls =>
        rw [ih, h]
        simp

theorem splitLines_eq_single {s : Str} (h : '\n' ∉ s) : splitLines s = [s] := by
  induction s with
  | nil => rfl
  | cons c rest ih =>
    have hc : c ≠ '\n' := fun he => h (he ▸ List.mem_cons_self c rest)
    have h' : '\n' ∉ rest := fun hm => h (List.mem_cons_of_mem _ hm)
    simp [splitLines, hc, ih h']

theorem splitLines_joinLines :
    ∀ L : List Str, L ≠ [] → (∀ l ∈ L, '\n' ∉ l) → splitLines (joinLines L) = L
  | [], h, _ => absurd rfl h
  | [l], _, hm => by
    simp [joinLines, splitLines_eq_single (hm l (by simp))]
  | l :: l' :: ls, _, hm => by
    have ih := splitLines_joinLines (l' :: ls) (by simp)
      (fun x hx => hm x (List.mem_cons_of_mem _ hx))
    simp [joinLines, splitLines_append, splitLines_eq_single (hm l (by simp)), ih]

theorem splitLines_joinLines_last (L : List Str) (c : Str) (h : '\n' ∉ c) :
    ∃ M, splitLines (joinLines (L ++ [c, []])) = M ++ [c, []] := by
  induction L with
  | nil =>
    refine ⟨[], ?_⟩
    show splitLines (joinLines [c, []]) = [c, []]
    have e : joinLines [c, []] = c ++ '\n' :: [] := rfl
    rw [e, splitLines_append, splitLines_eq_single h]
    rfl
  | cons l L ih =>
    obtain ⟨M, hM⟩ := ih
    cases hL : L ++ [c, []] with
    | nil => simp at hL
    | cons x xs =>
      have e : joinLines ((l :: L) ++ [c, []]) = l ++ '\n' :: joinLines (L ++ [c, []]) := by
        rw [List.cons_append, hL]
        rfl
      refine ⟨splitLines l ++ M, ?_⟩
      rw [e, splitLines_append, hM, List.append_assoc]

theorem not_newline_append {x y : Str} (hx : '\n' ∉ x) (hy : '\n' ∉ y) :
    '\n' ∉ x ++ y :=
  fun hm => (List.mem_append.1 hm).elim hx hy

/-- The rendered template is the newline-join of its twenty template
lines (the blank lines and the trailing newline included). -/
theorem renderScript_eq_joinLines (job qos part acc : Str) (ntasks cpu : Int)
    (mem gpu time pwdR logfile condaEnv command : Str) :
    renderScript job qos part acc ntasks cpu mem gpu time pwdR logfile condaEnv command =
    joinLines [str "#!/bin/bash",
      str "#SBATCH --job-name=" ++ job,
      str "#SBATCH --qos=" ++ qos,
      str "#SBATCH --partition=" ++ part,
      str "#SBATCH --account=" ++ acc,
      str "#SBATCH --ntasks=" ++ intToStr ntasks,
      str "#SBATCH --cpus-per-task=" ++ intToStr cpu,
      str "#SBATCH --mem=" ++ mem ++ str "gb",
      str "#SBATCH --gpus=" ++ gpu,
      str "#SBATCH --time=" ++ time,
      str "#SBATCH --output=" ++ pwdR ++ str "/" ++ logfile ++ str " # Redirect the output to a file",
      [],
      str "eval \"$(conda shell.bash hook)\"",
      [],
      str "# Activate conda environment",
      str "conda activate " ++ condaEnv,
      [],
      str "# Run your Python script or other commands",
      command,
      []] := by
  simp only [renderScript, joinLines, List.append_assoc, List.cons_append, List.nil_append]
  rfl

/-- Under newline-free field renderings, the lines of the script `run`
submits, in template order. -/
theorem scriptOf_lines (w : World) (a : RunArgs)
    (h1 : '\n' ∉ a.job) (h2 : '\n' ∉ effQos a) (h3 : '\n' ∉ a.part)
    (h4 : '\n' ∉ a.acc) (h5 : '\n' ∉ intToStr a.ntasks)
    (h6 : '\n' ∉ intToStr (effCpu a)) (h7 : '\n' ∉ effMem a)
    (h8 : '\n' ∉ effGpu a) (h9 : '\n' ∉ a.time) (h10 : '\n' ∉ pyStr a.pwd)
    (h11 : '\n' ∉ dLog a) (h12 : '\n' ∉ pyStr a.conda_env)
    (h13 : '\n' ∉ normCmd w a.command) :
    splitLines (scriptOf w a) =
    [str "#!/bin/bash",
      str "#SBATCH --job-name=" ++ a.job,
      str "#SBATCH --qos=" ++ effQos a,
      str "#SBATCH --partition=" ++ a.part,
      str "#SBATCH --account=" ++ a.acc,
      str "#SBATCH --ntasks=" ++ intToStr a.ntasks,
      str "#SBATCH --cpus-per-task=" ++ intToStr (effCpu a),
      str "#SBATCH --mem=" ++ effMem a ++ str "gb",
      str "#SBATCH --gpus=" ++ effGpu a,
      str "#SBATCH --time=" ++ a.time,
      str "#SBATCH --output=" ++ pyStr a.pwd ++ str "/" ++ dLog a ++ str " # Redirect the output to a file",
      [],
      str "eval \"$(conda shell.bash hook)\"",
      [],
      str "# Activate conda environment",
      str "conda activate " ++ pyStr a.conda_env,
      [],
      str "# Run your Python script or other commands",
      normCmd w a.command,
      []] := by
  rw [scriptOf, renderScript_eq_joinLines]
  refine splitLines_joinLines _ (by simp) ?_
  intro l hl
  simp only [List.mem_cons, List.not_mem_nil, or_false] at hl
  rcases hl with rfl | rfl | rfl | rfl | rfl | rfl | rfl | rfl | rfl | rfl | rfl | rfl |
    rfl | rfl | rfl | rfl | rfl | rfl | rfl | rfl
  · decide
  · exact not_newline_append (by decide) h1
  · exact not_newline_append (by decide) h2
  · exact not_newline_append (by decide) h3
  · exact not_newline_append (by decide) h4
  · exact not_newline_append (by decide) h5
  · exact not_newline_append (by decide) h6
  · exact not_newline_append (not_newline_append (by decide) h7) (by decide)
  · exact not_newline_append (by decide) h8
  · exact not_newline_append (by decide) h9
  · exact not_newline_append (not_newline_append (not_newline_append
      (not_newline_append (by decide) h10) (by decide)) h11) (by decide)
  · simp
  · decide
  · simp
  · decide
  · exact not_newline_append (by decide) h12
  · simp
  · decide
  · exact h13
  · simp

theorem searchPid_digits {s ds : Str} (h : searchPid s = some ds) :
    ∀ c ∈ ds, c.isDigit = true := by
  induction s with
  | nil => simp [searchPid] at h
  | cons c rest ih =>
    rw [searchPid] at h
    split at h
    · split at h
      · exact ih h
      · rename_i d ds' heq
        injection h with h'
        intro x hx
        rw [← h'] at hx
        rw [← heq] at hx
        exact List.mem_takeWhile_imp hx
    · exact ih h

theorem pidOf_no_newline (s : Str) : '\n' ∉ pidOf s := by
  unfold pidOf
  cases h : searchPid s with
  | none => decide
  | some ds =>
    intro hm
    exact absurd (searchPid_digits h '\n' hm) (by decide)

theorem searchPid_cons_cases (c : Char) (R : Str) :
    searchPid (c :: R) = searchPid R ∨ ∃ r, searchPid (c :: R) = some r := by
  rw [searchPid]
  split
  · split
    · left
      rfl
    · right
      exact ⟨_, rfl⟩
  · left
    rfl

theorem searchPid_at_lit (d : Char) (rest : Str) (hd : d.isDigit = true) :
    searchPid (str "Submitted batch job " ++ (d :: rest)) =
      some (d :: rest.takeWhile Char.isDigit) := by
  have e : str "Submitted batch job " ++ (d :: rest) =
      'S' :: (str "ubmitted batch job " ++ (d :: rest)) := rfl
  rw [e, searchPid, ← e]
  have hp : (str "Submitted batch job ").isPrefixOf
      (str "Submitted batch job " ++ (d :: rest)) = true := by
    rw [ List.isPrefixOf_iff_prefix]
    exact List.prefix_append _ _
  rw [if_pos hp]
  have hdrop : (str "Submitted batch job " ++ (d :: rest)).drop 20 = d :: rest :=
    List.drop_left' (by rfl)
  rw [hdrop]
  have htake : (d :: rest).takeWhile Char.isDigit = d :: rest.takeWhile Char.isDigit := by
    simp [List.takeWhile_cons, hd]
  rw [htake]

theorem searchPid_isSome_decomp :
    ∀ (pre ds post : Str), ds ≠ [] → (∀ c ∈ ds, c.isDigit = true) →
      ∃ r, searchPid (pre ++ (str "Submitted batch job " ++ (ds ++ post))) = some r := by
  intro pre
  induction pre with
  | nil =>
    intro ds post hne hdig
    cases ds with
    | nil => exact absurd rfl hne
    | cons d ds' =>
      refine ⟨d :: (ds' ++ post).takeWhile Char.isDigit, ?_⟩
      rw [List.nil_append]
      have : d :: ds' ++ post = d :: (ds' ++ post) := rfl
      rw [this, searchPid_at_lit d (ds' ++ post) (hdig d (by simp))]
  | cons c pre ih =>
    intro ds post hne hdig
    obtain ⟨r, hr⟩ := ih ds post hne hdig
    rcases searchPid_cons_cases c (pre ++ (str "Submitted batch job " ++ (ds ++ post))) with
      h | ⟨r', h⟩
    · rw [List.cons_append, h]
      exact ⟨r, hr⟩
    · rw [List.cons_append]
      exact ⟨r', h⟩

theorem contains_of_searchPid_some : ∀ {s ds : Str},
    searchPid s = some ds → ContainsSubmitted s := by
  intro s
  induction s with
  | nil =>
    intro ds h
    simp [searchPid] at h
  | cons c rest ih =>
    intro ds h
    rw [searchPid] at h
    split at h
    · rename_i hpre
      split at h
      · obtain ⟨pre, ds', post, hne, hdig, heq⟩ := ih h
        exact ⟨c :: pre, ds', post, hne, hdig, by rw [List.cons_append]; rw [heq]; simp⟩
      · rename_i d ds'' heq
        have hp : str "Submitted batch job " <+: (c :: rest) :=
          List.isPrefixOf_iff_prefix.1 hpre
        obtain ⟨t, ht⟩ := hp
        have hdrop : (c :: rest).drop 20 = t := by
          rw [← ht]
          exact List.drop_left' (by rfl)
        rw [hdrop] at heq
        refine ⟨[], d :: ds'', t.dropWhile Char.isDigit, by simp, ?_, ?_⟩
        · intro x hx
          rw [← heq] at hx
          exact List.mem_takeWhile_imp hx
        · rw [List.nil_append, ← ht]
          have : t = (d :: ds'') ++ t.dropWhile Char.isDigit := by
            conv_lhs => rw [← List.takeWhile_append_dropWhile (p := Char.isDigit) (l := t)]
            rw [heq]
          rw [List.append_assoc, ← this]
    · obtain ⟨pre, ds', post, hne, hdig, heq⟩ := ih h
      exact ⟨c :: pre, ds', post, hne, hdig, by rw [List.cons_append, heq]; simp⟩

theorem searchPid_none_of_not_contains {s : Str} (h : ¬ ContainsSubmitted s) :
    searchPid s = none := by
  cases hs : searchPid s with
  | none => rfl
  | some ds => exact absurd (contains_of_searchPid_some hs) h

theorem contains_iff_searchPid_isSome (s : Str) :
    ContainsSubmitted s ↔ ∃ r, searchPid s = some r := by
  constructor
  · intro h
    obtain ⟨pre, ds, post, hne, hdig, rfl⟩ := h
    have := searchPid_isSome_decomp pre ds post hne hdig
    simpa [List.append_assoc] using this
  · rintro ⟨r, hr⟩
    exact contains_of_searchPid_some hr

theorem str_newline_append (Y : Str) : str "\n" ++ Y = '\n' :: Y := rfl

theorem str_newline : str "\n" = ['\n'] := rfl

theorem str_header_append (Y : Str) :
    str "\n# Details <batc> ::\n" ++ Y = str "\n# Details <batc> ::" ++ '\n' :: Y := rfl

theorem str_slash_append (Y : Str) : str "/" ++ Y = '/' :: Y := rfl

/-- The record text in head-line normal form. -/
theorem recordContent_shape (w : World) (a : RunArgs) :
    recordContent w a =
      str "\n# Details <batc> ::" ++ '\n' ::
        ((str "PID : " ++ pidOf w.sbatchOut) ++ '\n' ::
          (str " " ++ '\n' ::
            ((str "Time of job submission: " ++ w.now) ++ '\n' ::
              (str " " ++ '\n' ::
                (str "Sbatch script:" ++ '\n' ::
                  (scriptOf w a ++ '\n' ::
                    (str " " ++ '\n' ::
                      (str "Std Out From Subprocess (If Any):" ++ '\n' ::
                        (w.sbatchOut ++ '\n' ::
                          (str "Std Err (If Any):" ++ '\n' ::
                            (w.sbatchErr ++ ['\n']))))))))))) := by
  simp only [recordContent, List.append_assoc, str_header_append, str_newline_append,
    str_newline, List.singleton_append, List.cons_append, List.nil_append]

/-- The third line (index 2) of the record file is the `PID :` line. -/
theorem recordContent_pid_line (w : World) (a : RunArgs) :
    (splitLines (recordContent w a)).get? 2 = some (str "PID : " ++ pidOf w.sbatchOut) := by
  rw [recordContent_shape, splitLines_append, splitLines_append,
    splitLines_eq_single (not_newline_append (by decide) (pidOf_no_newline w.sbatchOut))]
  have hA : splitLines (str "\n# Details <batc> ::") = [[], str "# Details <batc> ::"] := by
    decide
  rw [hA]
  rfl

/- ------------------------------------------------------------------
   Claims
   ------------------------------------------------------------------ -/

/-- C1: whenever a file already exists at the (possibly derived)
logfile path, `run` rejects the invocation with the `--logfile` usage
error and performs no effect at all — in particular the `sbatch`
subprocess is never spawned and the record file is neither created nor
modified. -/
theorem C1_logfile_exists_rejects (w : World) (a : RunArgs)
    (h : isfileAt w (dLog a) = true) :
    run w a = ([], some (PyError.badOptionUsage (str "--logfile")
      (str "File with the same name as logfile already exists"))) := by
  simp [run, h]

/-- Witness for C1 at a concrete world where `/cwd/default.log`
exists and the logfile name derives from the default job name. -/
theorem C1_logfile_exists_rejects_witness :
    isfileAt { wStd with isfile := fsLog } (dLog { aStd with job := str "default" }) = true ∧
    run { wStd with isfile := fsLog } { aStd with job := str "default" } =
      ([], some (PyError.badOptionUsage (str "--logfile")
        (str "File with the same name as logfile already exists"))) :=
  ⟨by decide, C1_logfile_exists_rejects _ _ (by decide)⟩

/-- C2: with the `-M` flag set, the rendered script's qos,
cpus-per-task, gpus and mem directives are the fixed override values
(`huge-long`, `4`, `rtxa4000:4`, `32gb`) irrespective of the supplied
`qos`/`cpu`/`gpu`/`mem` fields, while every other directive reflects
the caller's supplied values unchanged (newline-free renderings
assumed so that lines are well defined). -/
theorem C2_max_flag_overrides (w : World) (a : RunArgs) (hm : a.m = true)
    (h1 : '\n' ∉ a.job) (h3 : '\n' ∉ a.part) (h4 : '\n' ∉ a.acc)
    (h5 : '\n' ∉ intToStr a.ntasks) (h9 : '\n' ∉ a.time)
    (h10 : '\n' ∉ pyStr a.pwd) (h11 : '\n' ∉ dLog a)
    (h12 : '\n' ∉ pyStr a.conda_env) (h13 : '\n' ∉ normCmd w a.command) :
    splitLines (scriptOf w a) =
    [str "#!/bin/bash",
      str "#SBATCH --job-name=" ++ a.job,
      str "#SBATCH --qos=huge-long",
      str "#SBATCH --partition=" ++ a.part,
      str "#SBATCH --account=" ++ a.acc,
      str "#SBATCH --ntasks=" ++ intToStr a.ntasks,
      str "#SBATCH --cpus-per-task=4",
      str "#SBATCH --mem=32gb",
      str "#SBATCH --gpus=rtxa4000:4",
      str "#SBATCH --time=" ++ a.time,
      str "#SBATCH --output=" ++ pyStr a.pwd ++ str "/" ++ dLog a ++ str " # Redirect the output to a file",
      [],
      str "eval \"$(conda shell.bash hook)\"",
      [],
      str "# Activate conda environment",
      str "conda activate " ++ pyStr a.conda_env,
      [],
      str "# Run your Python script or other commands",
      normCmd w a.command,
      []] := by
  have hq : effQos a = str "huge-long" := by simp [effQos, hm]
  have hc : effCpu a = 4 := by simp [effCpu, hm]
  have hg : effGpu a = str "rtxa4000:4" := by simp [effGpu, hm]
  have hmem : effMem a = str "32" := by simp [effMem, hm]
  rw [scriptOf_lines w a h1 (by rw [hq]; decide) h3 h4 h5 (by rw [hc]; decide)
    (by rw [hmem]; decide) (by rw [hg]; decide) h9 h10 h11 h12 h13]
  rw [hq, hc, hg, hmem]
  rfl

/-- Witness for C2: with `-M` set and deliberately different
user-supplied qos/cpu/gpu/mem values, the four overridden directives
come out fixed and the rest reflect the supplied values. -/
theorem C2_max_flag_overrides_witness :
    splitLines (scriptOf wStd
      { aStd with m := true, qos := str "cheap", cpu := 99,
                  gpu := str "p100:1", mem := str "1" }) =
    [str "#!/bin/bash",
      str "#SBATCH --job-name=myjob",
      str "#SBATCH --qos=huge-long",
      str "#SBATCH --partition=clip",
      str "#SBATCH --account=clip",
      str "#SBATCH --ntasks=1",
      str "#SBATCH --cpus-per-task=4",
      str "#SBATCH --mem=32gb",
      str "#SBATCH --gpus=rtxa4000:4",
      str "#SBATCH --time=10:00",
      str "#SBATCH --output=/home/alice/proj/myjob.log # Redirect the output to a file",
      [],
      str "eval \"$(conda shell.bash hook)\"",
      [],
      str "# Activate conda environment",
      str "conda activate base",
      [],
      str "# Run your Python script or other commands",
      str "python train.py --flag",
      []] := by
  have h := C2_max_flag_overrides wStd
    { aStd with m := true, qos := str "cheap", cpu := 99,
                gpu := str "p100:1", mem := str "1" }
    rfl (by decide) (by decide) (by decide) (by decide) (by decide)
    (by decide) (by decide) (by decide) (by decide)
  rw [h]
  decide

/-- C3: the final executable line of the rendered script (the
penultimate split line, before the trailing empty line) is the command
prefixed with `python ` when the command names an existing file, and
the command unchanged otherwise. -/
theorem C3_command_normalization (w : World) (a : RunArgs)
    (hc : '\n' ∉ a.command) :
    (isfileAt w a.command = true →
      ∃ M, splitLines (scriptOf w a) = M ++ [str "python " ++ a.command, []]) ∧
    (isfileAt w a.command = false →
      ∃ M, splitLines (scriptOf w a) = M ++ [a.command, []]) := by
  have hn : '\n' ∉ normCmd w a.command := by
    unfold normCmd
    split
    · exact not_newline_append (by decide) hc
    · exact hc
  have key : ∃ M, splitLines (scriptOf w a) = M ++ [normCmd w a.command, []] := by
    rw [scriptOf, renderScript_eq_joinLines]
    obtain ⟨M, hM⟩ := splitLines_joinLines_last
      [str "#!/bin/bash",
        str "#SBATCH --job-name=" ++ a.job,
        str "#SBATCH --qos=" ++ effQos a,
        str "#SBATCH --partition=" ++ a.part,
        str "#SBATCH --account=" ++ a.acc,
        str "#SBATCH --ntasks=" ++ intToStr a.ntasks,
        str "#SBATCH --cpus-per-task=" ++ intToStr (effCpu a),
        str "#SBATCH --mem=" ++ effMem a ++ str "gb",
        str "#SBATCH --gpus=" ++ effGpu a,
        str "#SBATCH --time=" ++ a.time,
        str "#SBATCH --output=" ++ pyStr a.pwd ++ str "/" ++ dLog a ++ str " # Redirect the output to a file",
        [],
        str "eval \"$(conda shell.bash hook)\"",
        [],
        str "# Activate conda environment",
        str "conda activate " ++ pyStr a.conda_env,
        [],
        str "# Run your Python script or other commands"]
      (normCmd w a.command) hn
    exact ⟨M, hM⟩
  constructor
  · intro hf
    obtain ⟨M, hM⟩ := key
    refine ⟨M, ?_⟩
    rw [hM]
    have : normCmd w a.command = str "python " ++ a.command := by
      simp [normCmd, hf]
    rw [this]
  · intro hf
    obtain ⟨M, hM⟩ := key
    refine ⟨M, ?_⟩
    rw [hM]
    have : normCmd w a.command = a.command := by
      simp [normCmd, hf]
    rw [this]

/-- Witness for C3: with `/cwd/train.py` on disk and the bare command
`train.py`, the final executable line is `python train.py`. -/
theorem C3_command_normalization_witness :
    ∃ M, splitLines (scriptOf { wStd with isfile := fsTrain }
        { aStd with command := str "train.py" }) =
      M ++ [str "python " ++ ({ aStd with command := str "train.py" } : RunArgs).command, []] :=
  (C3_command_normalization { wStd with isfile := fsTrain }
    { aStd with command := str "train.py" } (by decide)).1 (by decide)

/-- C4: when `run` proceeds to the record step, the record file's
`PID` line carries exactly the digits captured by the job-id search
when the captured stdout contains `Submitted batch job <digits>`, and
the placeholder `Unknown PID` otherwise; neither case is an error
(`run` completes with no error). -/
theorem C4_pid_extraction (w : World) (a : RunArgs) (p : Str)
    (hf : isfileAt w (dLog a) = false) (hp : w.env "PWD" = some p) :
    run w a = ([Effect.spawnSbatch (scriptOf w a),
        Effect.writeFile (pathJoin p (dData a)) (recordContent w a)], none) ∧
    (ContainsSubmitted w.sbatchOut →
      ∃ ds, searchPid w.sbatchOut = some ds ∧
        (splitLines (recordContent w a)).get? 2 = some (str "PID : " ++ ds)) ∧
    (¬ ContainsSubmitted w.sbatchOut →
      (splitLines (recordContent w a)).get? 2 = some (str "PID : Unknown PID")) := by
  refine ⟨by simp [run, hf, hp], ?_, ?_⟩
  · intro hcs
    obtain ⟨r, hr⟩ := (contains_iff_searchPid_isSome _).1 hcs
    refine ⟨r, hr, ?_⟩
    rw [recordContent_pid_line]
    simp [pidOf, hr]
  · intro hnc
    rw [recordContent_pid_line]
    have h0 := searchPid_none_of_not_contains hnc
    simp only [pidOf, h0]
    rfl

/-- Witness for C4 at a concrete world whose `sbatch` printed
`Submitted batch job 12345`: the record's PID line carries `12345`. -/
theorem C4_pid_extraction_witness :
    ∃ ds, searchPid wStd.sbatchOut = some ds ∧
      (splitLines (recordContent wStd aStd)).get? 2 = some (str "PID : " ++ ds) :=
  (C4_pid_extraction wStd aStd (str "/cwd") (by decide) (by decide)).2.1
    ⟨[], str "12345", str "\n", by decide, by decide, by decide⟩

/-- C5 counterexample: at a concrete configuration the claim "each
directive line has the form `#SBATCH --<key>=<value>` with nothing
else on the line" fails — the `--output` directive line carries a
trailing ` # Redirect the output to a file` comment, so the directive
lines are not the ten clean `key=value` lines the claim demands. -/
theorem C5_directive_lines_counterexample :
    ¬ ((splitLines (scriptOf wStd aStd)).filter
        (fun l => l.take 10 == str "#SBATCH --") =
      [str "#SBATCH --job-name=myjob",
        str "#SBATCH --qos=default",
        str "#SBATCH --partition=clip",
        str "#SBATCH --account=clip",
        str "#SBATCH --ntasks=1",
        str "#SBATCH --cpus-per-task=1",
        str "#SBATCH --mem=32gb",
        str "#SBATCH --gpus=rtxa4000:1",
        str "#SBATCH --time=10:00",
        str "#SBATCH --output=/home/alice/proj/myjob.log"]) := by
  decide

/-- C5 (amended): for every configuration whose rendered field values
contain no newline, the script's lines are exactly the fixed template:
one directive line per field, in template order (job-name, qos,
partition, account, ntasks, cpus-per-task, mem, gpus, time, output),
each of the form `#SBATCH --<key>=<value>` with memory rendered as
`<value>gb` and nothing else on the line — except the output
directive, which additionally carries the trailing comment
` # Redirect the output to a file`. -/
theorem C5_directive_lines_amended (w : World) (a : RunArgs)
    (h1 : '\n' ∉ a.job) (h2 : '\n' ∉ effQos a) (h3 : '\n' ∉ a.part)
    (h4 : '\n' ∉ a.acc) (h5 : '\n' ∉ intToStr a.ntasks)
    (h6 : '\n' ∉ intToStr (effCpu a)) (h7 : '\n' ∉ effMem a)
    (h8 : '\n' ∉ effGpu a) (h9 : '\n' ∉ a.time) (h10 : '\n' ∉ pyStr a.pwd)
    (h11 : '\n' ∉ dLog a) (h12 : '\n' ∉ pyStr a.conda_env)
    (h13 : '\n' ∉ normCmd w a.command) :
    splitLines (scriptOf w a) =
    [str "#!/bin/bash",
      str "#SBATCH --job-name=" ++ a.job,
      str "#SBATCH --qos=" ++ effQos a,
      str "#SBATCH --partition=" ++ a.part,
      str "#SBATCH --account=" ++ a.acc,
      str "#SBATCH --ntasks=" ++ intToStr a.ntasks,
      str "#SBATCH --cpus-per-task=" ++ intToStr (effCpu a),
      str "#SBATCH --mem=" ++ effMem a ++ str "gb",
      str "#SBATCH --gpus=" ++ effGpu a,
      str "#SBATCH --time=" ++ a.time,
      str "#SBATCH --output=" ++ pyStr a.pwd ++ str "/" ++ dLog a ++ str " # Redirect the output to a file",
      [],
      str "eval \"$(conda shell.bash hook)\"",
      [],
      str "# Activate conda environment",
      str "conda activate " ++ pyStr a.conda_env,
      [],
      str "# Run your Python script or other commands",
      normCmd w a.command,
      []] :=
  scriptOf_lines w a h1 h2 h3 h4 h5 h6 h7 h8 h9 h10 h11 h12 h13

/-- Witness for the amended C5 at a concrete configuration. -/
theorem C5_directive_lines_amended_witness :
    splitLines (scriptOf wStd aStd) =
    [str "#!/bin/bash",
      str "#SBATCH --job-name=" ++ aStd.job,
      str "#SBATCH --qos=" ++ effQos aStd,
      str "#SBATCH --partition=" ++ aStd.part,
      str "#SBATCH --account=" ++ aStd.acc,
      str "#SBATCH --ntasks=" ++ intToStr aStd.ntasks,
      str "#SBATCH --cpus-per-task=" ++ intToStr (effCpu aStd),
      str "#SBATCH --mem=" ++ effMem aStd ++ str "gb",
      str "#SBATCH --gpus=" ++ effGpu aStd,
      str "#SBATCH --time=" ++ aStd.time,
      str "#SBATCH --output=" ++ pyStr aStd.pwd ++ str "/" ++ dLog aStd ++ str " # Redirect the output to a file",
      [],
      str "eval \"$(conda shell.bash hook)\"",
      [],
      str "# Activate conda environment",
      str "conda activate " ++ pyStr aStd.conda_env,
      [],
      str "# Run your Python script or other commands",
      normCmd wStd aStd.command,
      []] :=
  C5_directive_lines_amended wStd aStd (by decide) (by decide) (by decide)
    (by decide) (by decide) (by decide) (by decide) (by decide) (by decide)
    (by decide) (by decide) (by decide) (by decide)

/-- C6 (code bug): the `--conda_env` default reads the environment
variable literally named `$CONDA_DEFAULT_ENV` (with a dollar sign), so
in an environment where the active conda env is recorded in
`CONDA_DEFAULT_ENV` as `myenv` the default is `None`, and the rendered
script activates `None` rather than `myenv`. -/
theorem C6_conda_env_default_bug :
    envStd "CONDA_DEFAULT_ENV" = some (str "myenv") ∧
    condaEnvDefault envStd = none ∧
    (splitLines (scriptOf wStd
        { aStd with conda_env := condaEnvDefault envStd })).get? 15 =
      some (str "conda activate None") := by
  decide

/-- C7: when the guard variable `BATC_SETUP` is `true`, `setup` only
reports that setup was already completed: no package install runs and
nothing is appended to the shell profile, so a repeated `setup` writes
nothing. -/
theorem C7_setup_guard (w : World)
    (h : w.env "BATC_SETUP" = some (str "true")) :
    setup w = ([Effect.echo (str "Setup has already been completed")], none) := by
  simp [setup, h]

/-- Witness for C7 in an environment with the guard set. -/
theorem C7_setup_guard_witness :
    setup wStd = ([Effect.echo (str "Setup has already been completed")], none) :=
  C7_setup_guard wStd (by decide)

/-- C8: if the fully-qualified domain name is not of the form
`nexus` followed by an alphabetic character, the module-level
account-name extraction raises `AttributeError` before any command —
including `setup`, which does not need the derived name — performs any
effect. -/
theorem C8_bad_hostname_fatal (w : World) (c : Command)
    (h : ¬ ∃ ch t, w.fqdn = str "nexus" ++ ch :: t ∧ ch.isAlpha = true) :
    batcMain w c = ([], some PyError.attributeError) := by
  have hm : matchNexus w.fqdn = none := by
    rw [matchNexus]
    split
    · rename_i hpre
      have hp : str "nexus" <+: w.fqdn := List.isPrefixOf_iff_prefix.1 hpre
      obtain ⟨t, ht⟩ := hp
      have hdrop : w.fqdn.drop 5 = t := by
        rw [← ht]
        exact List.drop_left' (by rfl)
      rw [hdrop]
      cases t with
      | nil => rfl
      | cons x xs =>
        rw [List.takeWhile_cons]
        by_cases hx : x.isAlpha
        · exact absurd ⟨x, xs, ht.symm, hx⟩ h
        · rw [if_neg hx]
    · rfl
  rw [batcMain.eq_def, hm]

/-- Witness for C8: on host `login01` even `setup` dies with the
startup `AttributeError` and performs no effect. -/
theorem C8_bad_hostname_fatal_witness :
    batcMain { wStd with fqdn := str "login01" } Command.setupCmd =
      ([], some PyError.attributeError) :=
  C8_bad_hostname_fatal { wStd with fqdn := str "login01" } Command.setupCmd
    (by
      rintro ⟨ch, t, hEq, -⟩
      have h1 : ({ wStd with fqdn := str "login01" } : World).fqdn.take 5 = str "nexus" := by
        rw [hEq]
        exact List.take_left' (by rfl)
      exact absurd h1 (by decide))

/-- C9: the existence check examines the logfile path resolved against
the process's current working directory, while the script's `--output`
directive names `{pwd}/{logfile}`; whenever the `--pwd` option differs
from the current working directory these are different paths. -/
theorem C9_check_path_differs_from_output (w : World) (a : RunArgs) (p : Str)
    (hp : a.pwd = some p) (hne : p ≠ w.cwd) :
    resolvePath w.cwd (dLog a) ≠ pyStr a.pwd ++ str "/" ++ dLog a := by
  rw [hp]
  simp only [pyStr]
  rw [List.append_assoc, str_slash_append, resolvePath]
  split
  · intro hEq
    have hlen := congrArg List.length hEq
    simp only [List.length_append, List.length_cons] at hlen
    omega
  · intro hEq
    exact hne (List.append_cancel_right hEq).symm

/-- Witness for C9: with `--pwd /elsewhere` and current directory
`/cwd`, the checked path differs from the output path. -/
theorem C9_check_path_differs_from_output_witness :
    resolvePath wStd.cwd (dLog { aStd with pwd := some (str "/elsewhere") }) ≠
      pyStr ({ aStd with pwd := some (str "/elsewhere") } : RunArgs).pwd ++ str "/" ++
        dLog { aStd with pwd := some (str "/elsewhere") } :=
  C9_check_path_differs_from_output wStd
    { aStd with pwd := some (str "/elsewhere") } (str "/elsewhere")
    rfl (by decide)

/-- C10: `run` writes the record file at the join of the `PWD`
environment variable with the datafile name, ignoring `--pwd`; with
`PWD` unset the record step fails fatally with a `TypeError` after the
`sbatch` subprocess has already been spawned. -/
theorem C10_record_path_from_env (w : World) (a : RunArgs)
    (hf : isfileAt w (dLog a) = false) :
    (∀ p, w.env "PWD" = some p →
      run w a = ([Effect.spawnSbatch (scriptOf w a),
        Effect.writeFile (pathJoin p (dData a)) (recordContent w a)], none)) ∧
    (w.env "PWD" = none →
      run w a = ([Effect.spawnSbatch (scriptOf w a)], some PyError.typeError)) := by
  constructor
  · intro p hp
    simp [run, hf, hp]
  · intro hp
    simp [run, hf, hp]

/-- Witness for C10: with the `PWD` environment variable unset,
`run` spawns `sbatch` and then fails with the `TypeError`, writing no
record file. -/
theorem C10_record_path_from_env_witness :
    run { wStd with env := fun _ => none } aStd =
      ([Effect.spawnSbatch (scriptOf { wStd with env := fun _ => none } aStd)],
        some PyError.typeError) :=
  (C10_record_path_from_env { wStd with env := fun _ => none } aStd (by decide)).2 rfl

end Batc
